import Mathlib

/-!
# Translation-office app: shallow embedding and verification

A shallow embedding of the core of the translation-office web application
(`app/` in the repository): the role model, the quote engine
(`app/services/quotes.py`), the job lifecycle engine (`app/services/jobs.py`),
message sanitization (`app/services/files.py`), the synchronous message-API
authorization (`app/dependencies.py`), the live-channel connection manager and
websocket admission (`app/routers/jobs.py`), and the quote-approval, quote-send
and invoice-generation routes (`app/routers/client.py`, `app/routers/manager.py`).

Conventions of the embedding:
* Python strings are modelled as `String` (or `List Char` where the claim is
  character-by-character, as in sanitization).
* SQLAlchemy rows are Lean structures; the database is a `Db` record of lists,
  one per table, and an ORM `db.get`/`query(...).first()`-style lookup is
  `List.find?`.  In-place row mutation is a `List.map` that rewrites the row
  with the matching primary key.
* Database-assigned ids and `datetime.utcnow()` are explicit parameters
  (`newId`, `now`).
* Python `float` prices are modelled as exact rationals `ℚ`; `round(x, 2)` is
  round-half-to-even on rationals, which is CPython's documented behaviour on
  the exactly representable values used here.
* A Python exception raised by an operation is modelled by returning the error
  alongside the *unchanged* state (the raise happens before any mutation in all
  modelled code paths).
-/

/-! ## Roles (`app/dependencies.py`, lines 11-14) -/

def ROLE_CLIENT : String := "client"

def ROLE_MANAGER : String := "manager"

def ROLE_TRANSLATOR : String := "translator"

def ROLE_ADMIN : String := "admin"

/-! ## Data model (`app/models.py`) -/

/-- `models.User` (id, username, role); the password hash is irrelevant here. -/
structure User where
  id : Nat
  username : String
  role : String
deriving DecidableEq

/-- `models.TranslationRequest`: the fields the modelled operations touch. -/
structure TranslationRequest where
  id : Nat
  client_id : Nat
  source_language : String
  target_language : String
  status : String
  word_count : Nat
deriving DecidableEq

/-- `models.Rate`. -/
structure Rate where
  source_language : String
  target_language : String
  unit_price : ℚ
  currency : String
deriving DecidableEq

/-- `models.Quote`. -/
structure Quote where
  id : Nat
  request_id : Nat
  word_count : Nat
  unit_price : ℚ
  currency : String
  total : ℚ
  status : String
deriving DecidableEq

/-- `models.Job`; `due_date` and `delivered_at` are abstract timestamps. -/
structure Job where
  id : Nat
  request_id : Nat
  translator_id : Option Nat
  status : String
  due_date : Option Nat
  notes : Option String
  delivered_at : Option Nat
  manager_comment : Option String
deriving DecidableEq

/-- `models.Invoice`. -/
structure Invoice where
  id : Nat
  client_id : Nat
  job_id : Nat
  amount : ℚ
  currency : String
  status : String
  issued_at : Option Nat
  pdf_path : Option String
deriving DecidableEq

/-- A `Job` row together with its `TranslationRequest` row, as the ORM exposes
it through the `job.request` relationship.  The service functions
(`can_view_job`, `assign_translator`, `update_job_status`) receive exactly this
pair of rows. -/
structure JobState where
  job : Job
  request : TranslationRequest
deriving DecidableEq

/-- The database: one list per table, in insertion order. -/
structure Db where
  requests : List TranslationRequest
  quotes : List Quote
  jobs : List Job
  invoices : List Invoice
  rates : List Rate
deriving DecidableEq

/-- The (at most one) `Job` row of a request, via the `request.job`
relationship (`uselist=False`: the first matching row). -/
def request_job (db : Db) (requestId : Nat) : Option Job :=
  db.jobs.find? (fun j => j.request_id == requestId)

/-- The (at most one) `Quote` row of a request (`request.quote`). -/
def request_quote (db : Db) (requestId : Nat) : Option Quote :=
  db.quotes.find? (fun q => q.request_id == requestId)

/-! ## Message sanitization (`app/services/files.py`, lines 30-32)

```python
def sanitize_message(text: str) -> str:
    safe_text = text.strip()[:1000]
    return html.escape(safe_text).replace("\n", "<br>")
```

`html.escape` (with its default `quote=True`) rewrites `&` to `&amp;`, `<` to
`&lt;`, `>` to `&gt;`, `"` to `&quot;` and the apostrophe to `&#x27;`, and
touches nothing else; the subsequent `.replace` rewrites every newline (which
`html.escape` leaves alone, and whose `<` and `>` are introduced only *after*
escaping) to `<br>`.  The composition is therefore the character-wise map
`escapeChar` below.  Python `str.strip()` is modelled over the ASCII whitespace
characters `Char.isWhitespace` covers. -/

/-- What `html.escape(...).replace("\n", "<br>")` does to one character. -/
def escapeChar (c : Char) : List Char :=
  if c = '&' then "&amp;".data
  else if c = '<' then "&lt;".data
  else if c = '>' then "&gt;".data
  else if c = Char.ofNat 34 then "&quot;".data
  else if c = Char.ofNat 39 then "&#x27;".data
  else if c = '\n' then "<br>".data
  else [c]

/-- `escapeChar` mapped over a whole string. -/
def escapeAll : List Char → List Char
  | [] => []
  | c :: cs => escapeChar c ++ escapeAll cs

/-- Python `str.strip()`: drop leading and trailing whitespace. -/
def pyStrip (s : List Char) : List Char :=
  ((s.dropWhile Char.isWhitespace).reverse.dropWhile Char.isWhitespace).reverse

/-- `sanitize_message` from `app/services/files.py`: trim, truncate to 1000
characters, then HTML-escape and turn newlines into `<br>`. -/
def sanitize_message (text : List Char) : List Char :=
  let safe_text := (pyStrip text).take 1000
  escapeAll safe_text

/-! ## Authorization predicates

`can_view_job` (`app/services/jobs.py`, lines 77-84) and the admission decision
of `require_job_participant` (`app/dependencies.py`, lines 58-72).
`require_job_participant` first 404s when the job row is missing; both
predicates below are the decision on an existing job row (with its request),
`true` = admitted. -/

/-- `can_view_job(user, job)` from `app/services/jobs.py`. -/
def can_view_job (user : User) (s : JobState) : Bool :=
  if user.role == ROLE_MANAGER || user.role == ROLE_ADMIN then true
  else if user.role == ROLE_CLIENT && s.request.client_id == user.id then true
  else if user.role == ROLE_TRANSLATOR && s.job.translator_id == some user.id then true
  else false

/-- The admit/deny decision of `require_job_participant` from
`app/dependencies.py`: build `allowed_user_ids` = {the request's client id}
∪ {the job's translator id, when truthy} ∪ {the caller's own id, when the
caller is a manager or admin}, and admit iff the caller's id is in it.
Python's `if job.translator_id:` is falsy both for `None` and for `0`. -/
def require_job_participant (user : User) (s : JobState) : Bool :=
  let allowed : List Nat := [s.request.client_id]
  let allowed : List Nat :=
    match s.job.translator_id with
    | some t => if t ≠ 0 then allowed ++ [t] else allowed
    | none => allowed
  let allowed : List Nat :=
    if user.role == ROLE_MANAGER || user.role == ROLE_ADMIN then allowed ++ [user.id]
    else allowed
  allowed.contains user.id

/-! ## Job lifecycle engine (`app/services/jobs.py`) -/

/-- `ensure_job_for_request(db, request)` (lines 16-24): return the existing
job unchanged, else insert a fresh `Job(status="New")` and set the request's
status to `"New"`.  `newJobId` models the database-assigned primary key. -/
def ensure_job_for_request (db : Db) (request : TranslationRequest) (newJobId : Nat) :
    Db × Job :=
  match db.jobs.find? (fun j => j.request_id == request.id) with
  | some j => (db, j)
  | none =>
    let job : Job :=
      { id := newJobId, request_id := request.id, translator_id := none,
        status := "New", due_date := none, notes := none,
        delivered_at := none, manager_comment := none }
    ({ db with
        jobs := db.jobs ++ [job],
        requests := db.requests.map (fun r =>
          if r.id == request.id then { r with status := "New" } else r) },
      job)

/-- `assign_translator(db, job, translator, due_date, notes)` (lines 27-45),
acting on the job row and its request row.  The `ValueError` raised for a
non-translator user is returned as `some message` together with the untouched
state (the raise precedes every mutation).  Otherwise: set the translator,
advance `New → Assigned` on both rows when a translator is supplied while the
job is `New`, and overwrite due date and notes. -/
def assign_translator (s : JobState) (translator : Option User)
    (due_date : Option Nat) (notes : Option String) : Option String × JobState :=
  if translator.any (fun t => t.role != ROLE_TRANSLATOR) then
    (some "Selected user is not a translator", s)
  else
    let job1 := { s.job with translator_id := translator.map User.id }
    let (job2, req2) : Job × TranslationRequest :=
      if translator.isSome ∧ job1.status = "New" then
        ({ job1 with status := "Assigned" }, { s.request with status := "Assigned" })
      else (job1, s.request)
    (none, { job := { job2 with due_date := due_date, notes := notes }, request := req2 })

/-- `update_job_status(db, job, status)` (lines 48-56): set the status on both
the job row and its request row; stamp `delivered_at` when the new status is
`"Delivered"`. -/
def update_job_status (s : JobState) (status : String) (now : Nat) : JobState :=
  { job := { s.job with
      status := status,
      delivered_at := if status = "Delivered" then some now else s.job.delivered_at },
    request := { s.request with status := status } }

/-! ## Quote engine (`app/services/quotes.py`) -/

/-- Python `round(x, 2)` on the exact value `x`: round half to even at two
decimal places. -/
def roundHalfEven (q : ℚ) : ℤ :=
  let f : ℤ := Rat.floor q
  if q - f < 1 / 2 then f
  else if 1 / 2 < q - f then f + 1
  else if f % 2 = 0 then f else f + 1

/-- `round(x, 2)`. -/
def round2 (q : ℚ) : ℚ := (roundHalfEven (q * 100) : ℚ) / 100

/-- `get_rate(db, source_language, target_language)` (lines 12-20): the first
`Rate` row for the language pair. -/
def get_rate (db : Db) (source_language target_language : String) : Option Rate :=
  db.rates.find? (fun r =>
    r.source_language == source_language && r.target_language == target_language)

/-- The unit price `create_or_update_quote` settles on: the supplied override
when given, else the rate for the language pair, else the fixed fallback
`0.10`. -/
def resolved_unit_price (db : Db) (request : TranslationRequest)
    (unit_price : Option ℚ) : ℚ :=
  match unit_price with
  | some p => p
  | none =>
    match get_rate db request.source_language request.target_language with
    | some r => r.unit_price
    | none => 1 / 10

/-- `create_or_update_quote(db, request, word_count, unit_price, currency)`
(lines 23-54): price the request, update the existing quote row in place
(keeping its status) or insert a fresh `Draft` quote, and synchronize the
request row's word count. -/
def create_or_update_quote (db : Db) (request : TranslationRequest)
    (word_count : Nat) (unit_price : Option ℚ) (currency : String)
    (newQuoteId : Nat) : Db × Quote :=
  let price := resolved_unit_price db request unit_price
  let total := round2 ((word_count : ℚ) * price)
  let (db1, quote) : Db × Quote :=
    match db.quotes.find? (fun q => q.request_id == request.id) with
    | some q =>
      let q1 := { q with
        word_count := word_count, unit_price := price,
        currency := currency, total := total }
      ({ db with quotes := db.quotes.map (fun x => if x.id == q.id then q1 else x) }, q1)
    | none =>
      let q1 : Quote :=
        { id := newQuoteId, request_id := request.id, word_count := word_count,
          unit_price := price, currency := currency, total := total, status := "Draft" }
      ({ db with quotes := db.quotes ++ [q1] }, q1)
  ({ db1 with
      requests := db1.requests.map (fun r =>
        if r.id == request.id then { r with word_count := word_count } else r) },
    quote)

/-- `mark_quote_status(db, quote, status)` (lines 57-62): unconditional set. -/
def mark_quote_status (db : Db) (quoteId : Nat) (status : String) : Db :=
  { db with quotes := db.quotes.map (fun q =>
      if q.id == quoteId then { q with status := status } else q) }

/-! ## Client and manager routes touching the lifecycle -/

/-- `approve_quote` (`app/routers/client.py`, lines 141-165), state changes
only (e-mail and audit log are external): 404 (`none`) when the quote is
missing or not the caller's; otherwise mark the quote `Approved`, run
`ensure_job_for_request`, and then set the resulting job's status to `"New"`
(the route does this unconditionally, also on a pre-existing job). -/
def approve_quote (db : Db) (user : User) (quoteId : Nat) (newJobId : Nat) :
    Option Db :=
  match db.quotes.find? (fun q => q.id == quoteId) with
  | none => none
  | some quote =>
    match db.requests.find? (fun r => r.id == quote.request_id) with
    | none => none  -- foreign key: a quote's request always exists
    | some req =>
      if req.client_id == user.id then
        let db1 := mark_quote_status db quoteId "Approved"
        let (db2, job) := ensure_job_for_request db1 req newJobId
        some { db2 with jobs := db2.jobs.map (fun j =>
          if j.id == job.id then { j with status := "New" } else j) }
      else none

/-- `send_quote` (`app/routers/manager.py`, lines 104-127), state changes only:
mark the quote `Sent` and set its request's status to `"Quoted"`. -/
def send_quote (db : Db) (quoteId : Nat) : Option Db :=
  match db.quotes.find? (fun q => q.id == quoteId) with
  | none => none
  | some quote =>
    let db1 := mark_quote_status db quoteId "Sent"
    some { db1 with requests := db1.requests.map (fun r =>
      if r.id == quote.request_id then { r with status := "Quoted" } else r) }

/-- The request ↔ job status lockstep: every request row whose job row exists
carries the job's status. -/
def dbMirrors (db : Db) : Bool :=
  db.requests.all (fun r =>
    match request_job db r.id with
    | some j => r.status == j.status
    | none => true)

/-! ## Invoice generation (`app/routers/manager.py`, lines 204-229) -/

/-- The three outcomes of the `generate_invoice` route: HTTP 400 ("Job not
ready for invoicing"), the informational "Invoice already generated" no-op,
and a freshly created invoice. -/
inductive InvoiceResult where
  | notReady
  | alreadyInvoiced
  | created (invoiceId : Nat)
deriving DecidableEq

/-- `generate_invoice(job_id)`: 400 when the job is missing or its status is
neither `Delivered` nor `Accepted`; an informational no-op when the job
already has an invoice; otherwise insert an invoice snapshotting the quote's
total and currency (0 / "EUR" when the quote is missing) and let
`generate_invoice_pdf` (`app/services/invoices.py`, lines 20-45) render it and
mark it `Issued` — the inserted-then-updated row is recorded here in its final
`Issued` form. -/
def generate_invoice (db : Db) (jobId : Nat) (newInvoiceId : Nat) (now : Nat) :
    InvoiceResult × Db :=
  match db.jobs.find? (fun j => j.id == jobId) with
  | none => (.notReady, db)
  | some job =>
    if job.status = "Delivered" ∨ job.status = "Accepted" then
      match db.invoices.find? (fun i => i.job_id == job.id) with
      | some _ => (.alreadyInvoiced, db)
      | none =>
        match db.requests.find? (fun r => r.id == job.request_id) with
        | none => (.notReady, db)  -- foreign key: a job's request always exists
        | some req =>
          let quote := db.quotes.find? (fun q => q.request_id == req.id)
          let invoice : Invoice :=
            { id := newInvoiceId, client_id := req.client_id, job_id := job.id,
              amount := (quote.map Quote.total).getD 0,
              currency := (quote.map Quote.currency).getD "EUR",
              status := "Issued", issued_at := some now,
              pdf_path := some ("invoices/invoice_" ++ toString newInvoiceId ++ ".pdf") }
          (.created newInvoiceId, { db with invoices := db.invoices ++ [invoice] })
    else (.notReady, db)

/-! ## Live channel (`app/routers/jobs.py`)

The `ConnectionManager`'s registry is a `job_id → ordered connections` dict
(insertion-ordered, as Python dicts are); a websocket is an opaque handle,
modelled by a `Nat`.  `send_json` on a given socket either succeeds or raises;
which sockets raise is a parameter `sendFails`. -/

/-- The connection registry: `Dict[int, List[WebSocket]]`. -/
abbrev Registry := List (Nat × List Nat)

/-- `self.connections.get(job_id, [])`. -/
def regGet (r : Registry) (jobId : Nat) : List Nat :=
  match r.find? (fun p => p.1 == jobId) with
  | some p => p.2
  | none => []

/-- Writing one key of the dict: overwrite in place, or append a new entry. -/
def regSet (r : Registry) (jobId : Nat) (v : List Nat) : Registry :=
  if r.any (fun p => p.1 == jobId) then
    r.map (fun p => if p.1 == jobId then (jobId, v) else p)
  else r ++ [(jobId, v)]

/-- `ConnectionManager.connect` (lines 24-26): accept the socket and append it
to the job's connection list (`setdefault(job_id, []).append(websocket)`). -/
def ConnectionManager.connect (r : Registry) (jobId : Nat) (ws : Nat) : Registry :=
  regSet r jobId (regGet r jobId ++ [ws])

/-- `ConnectionManager.broadcast`'s loop (lines 34-36), which has no
per-connection error handling: send to each registered connection in order;
the first socket whose send raises aborts the loop and the exception
propagates (`some failedSocket`).  The second component is the list of
connections actually sent to, in order. -/
def sendAll (sendFails : Nat → Bool) : List Nat → Option Nat × List Nat
  | [] => (none, [])
  | c :: rest =>
    if sendFails c then (some c, [])
    else
      let out := sendAll sendFails rest
      (out.1, c :: out.2)

/-- `ConnectionManager.broadcast(job_id, message)`: iterate over
`self.connections.get(job_id, [])`. -/
def ConnectionManager.broadcast (sendFails : Nat → Bool) (r : Registry)
    (jobId : Nat) : Option Nat × List Nat :=
  sendAll sendFails (regGet r jobId)

/-- Outcome of the websocket admission prologue of `job_ws`: the registry it
leaves behind and whether the socket was closed with the policy-violation code
1008 before entering the receive loop. -/
structure WsOutcome where
  registry : Registry
  closedPolicy : Bool
deriving DecidableEq

/-- The admission prologue of `job_ws` (`app/routers/jobs.py`, lines 127-143),
exactly in source order: FIRST `connection_manager.connect(job_id, websocket)`
registers the socket, THEN the session user id is checked (`if not user_id:`
is falsy for a missing id and for 0), the user and job rows are fetched, and
`can_view_job` is evaluated; every failure closes the socket with code 1008
and returns — without ever removing the socket from the registry
(`disconnect` runs only in the `WebSocketDisconnect` handler of the receive
loop, which a rejected socket never enters). -/
def job_ws (r : Registry) (jobId : Nat) (ws : Nat) (sessionUserId : Option Nat)
    (findUser : Nat → Option User) (findJob : Nat → Option JobState) : WsOutcome :=
  let r1 := ConnectionManager.connect r jobId ws
  match sessionUserId with
  | none => { registry := r1, closedPolicy := true }
  | some uid =>
    if uid = 0 then { registry := r1, closedPolicy := true }
    else
      match findUser uid, findJob jobId with
      | some user, some jobSt =>
        if can_view_job user jobSt then { registry := r1, closedPolicy := false }
        else { registry := r1, closedPolicy := true }
      | _, _ => { registry := r1, closedPolicy := true }

/-! ## Concrete states used by the counterexamples and witnesses -/

/-- A user with role `translator` whose id happens to equal the request's
client id (a state ruled out only by referential well-formedness, not by the
predicates themselves). -/
def c2user : User := { id := 1, username := "t", role := "translator" }

/-- An unassigned job whose request belongs to client id 1. -/
def c2state : JobState :=
  { job := { id := 1, request_id := 1, translator_id := none, status := "New",
             due_date := none, notes := none, delivered_at := none,
             manager_comment := none },
    request := { id := 1, client_id := 1, source_language := "EN",
                 target_language := "IT", status := "New", word_count := 0 } }

/-- A well-formed caller: the client user owning the request of `c2wstate`. -/
def c2wuser : User := { id := 2, username := "c", role := "client" }

/-- An unassigned job whose request belongs to client id 2. -/
def c2wstate : JobState :=
  { job := { id := 1, request_id := 1, translator_id := none, status := "New",
             due_date := none, notes := none, delivered_at := none,
             manager_comment := none },
    request := { id := 1, client_id := 2, source_language := "EN",
                 target_language := "IT", status := "New", word_count := 0 } }

/-- A request whose quote was already approved once: its job has advanced to
`Assigned` (mirrored on the request). -/
def c3req : TranslationRequest :=
  { id := 1, client_id := 2, source_language := "EN", target_language := "IT",
    status := "Assigned", word_count := 100 }

/-- The approved quote of `c3req`. -/
def c3quote : Quote :=
  { id := 3, request_id := 1, word_count := 100, unit_price := 1,
    currency := "EUR", total := 100, status := "Approved" }

/-- The job of `c3req`: assigned to translator 9, with a due date and notes. -/
def c3job : Job :=
  { id := 5, request_id := 1, translator_id := some 9, status := "Assigned",
    due_date := some 7, notes := some "rush", delivered_at := none,
    manager_comment := none }

/-- The database after the first approval and an assignment. -/
def c3db : Db :=
  { requests := [c3req], quotes := [c3quote], jobs := [c3job],
    invoices := [], rates := [] }

/-- The client owning request 1 of `c3db`. -/
def c3client : User := { id := 2, username := "c", role := "client" }

/-- A database in lockstep: request 1 mirrors its job's status `"New"`, with
an approved quote that the manager can still re-send. -/
def c6db : Db :=
  { requests := [{ id := 1, client_id := 2, source_language := "EN",
                   target_language := "IT", status := "New", word_count := 100 }],
    quotes := [{ id := 3, request_id := 1, word_count := 100, unit_price := 1,
                 currency := "EUR", total := 100, status := "Approved" }],
    jobs := [{ id := 5, request_id := 1, translator_id := none, status := "New",
               due_date := none, notes := none, delivered_at := none,
               manager_comment := none }],
    invoices := [], rates := [] }

/-- A job that was invoiced after delivery and then returned to the translator
(`return_job` sets the status back to `Assigned` and nothing ever deletes the
invoice), so it holds an invoice while its status is outside
{Delivered, Accepted}. -/
def c9db : Db :=
  { requests := [{ id := 1, client_id := 2, source_language := "EN",
                   target_language := "IT", status := "Assigned", word_count := 100 }],
    quotes := [{ id := 3, request_id := 1, word_count := 100, unit_price := 1,
                 currency := "EUR", total := 100, status := "Approved" }],
    jobs := [{ id := 1, request_id := 1, translator_id := some 9, status := "Assigned",
               due_date := none, notes := none, delivered_at := some 10,
               manager_comment := some "redo" }],
    invoices := [{ id := 4, client_id := 2, job_id := 1, amount := 100,
                   currency := "EUR", status := "Issued", issued_at := some 11,
                   pdf_path := some "invoices/invoice_4.pdf" }],
    rates := [] }

/-- A delivered job, still invoiced. -/
def c9wjob : Job :=
  { id := 1, request_id := 1, translator_id := some 9, status := "Delivered",
    due_date := none, notes := none, delivered_at := some 10,
    manager_comment := none }

/-- The invoice of `c9wjob`. -/
def c9winv : Invoice :=
  { id := 4, client_id := 2, job_id := 1, amount := 100, currency := "EUR",
    status := "Issued", issued_at := some 11,
    pdf_path := some "invoices/invoice_4.pdf" }

/-- A database holding the delivered, already invoiced job `c9wjob`. -/
def c9wdb : Db :=
  { requests := [{ id := 1, client_id := 2, source_language := "EN",
                   target_language := "IT", status := "Delivered", word_count := 100 }],
    quotes := [{ id := 3, request_id := 1, word_count := 100, unit_price := 1,
                 currency := "EUR", total := 100, status := "Approved" }],
    jobs := [c9wjob], invoices := [c9winv], rates := [] }

set_option maxRecDepth 100000

/-! ## General lemmas -/

theorem escapeChar_length_le (c : Char) : (escapeChar c).length ≤ 6 := by
  unfold escapeChar
  split_ifs <;> first | decide | simp

theorem escapeAll_length_le (l : List Char) : (escapeAll l).length ≤ 6 * l.length := by
  induction l with
  | nil => simp [escapeAll]
  | cons c cs ih =>
    simp only [escapeAll, List.length_append, List.length_cons]
    have h := escapeChar_length_le c
    omega

theorem regSet_cons_ne (p : Nat × List Nat) (t : Registry) (k : Nat) (v : List Nat)
    (hp : p.1 ≠ k) : regSet (p :: t) k v = p :: regSet t k v := by
  by_cases ht : t.any (fun q => q.1 == k)
  · simp [regSet, List.any_cons, hp, ht]
  · simp [regSet, List.any_cons, hp, ht]

theorem regGet_cons_ne (p : Nat × List Nat) (t : Registry) (k : Nat)
    (hp : p.1 ≠ k) : regGet (p :: t) k = regGet t k := by
  simp [regGet, List.find?_cons_of_neg, hp]

theorem regGet_regSet_self (r : Registry) (k : Nat) (v : List Nat) :
    regGet (regSet r k v) k = v := by
  induction r with
  | nil => simp [regSet, regGet]
  | cons p t ih =>
    by_cases hp : p.1 = k
    · simp [regSet, regGet, List.any_cons, hp]
    · rw [regSet_cons_ne p t k v hp, regGet_cons_ne p (regSet t k v) k hp]
      exact ih

theorem sendAll_spec (sendFails : Nat → Bool) (l : List Nat) :
    ((sendAll sendFails l).1 = none ↔ ∀ c ∈ l, sendFails c = false) ∧
    (sendAll sendFails l).2 = l.takeWhile (fun c => !sendFails c) := by
  induction l with
  | nil => simp [sendAll]
  | cons c rest ih =>
    by_cases h : sendFails c
    · simp [sendAll, h, List.takeWhile_cons]
    · simp [sendAll, h, List.takeWhile_cons, ih.1, ih.2]

/-- C4 (counterexample): 201 ampersands survive trim and truncation unchanged,
and each escapes to the five characters of the ampersand entity, so the
sanitized text has 1005 characters — the claimed 1000-character bound on the
persisted text is false. -/
theorem c4_counterexample_escaped_length_exceeds_1000 :
    ¬ ((sanitize_message (List.replicate 201 '&')).length ≤ 1000) := by decide

/-- C4 (amended): `sanitize_message` truncates to 1000 characters *before*
HTML-escaping, and escaping expands a character to at most 6 characters, so
the persisted text has length at most 6000 (not 1000). -/
theorem c4_amended_sanitized_length_le_6000 (text : List Char) :
    (sanitize_message text).length ≤ 6000 := by
  show (escapeAll ((pyStrip text).take 1000)).length ≤ 6000
  have h := escapeAll_length_le ((pyStrip text).take 1000)
  have h2 : ((pyStrip text).take 1000).length ≤ 1000 := by
    simp [List.length_take]
  omega

/-- C8 (counterexample): with sockets 10 and 20 registered for job 1 and the
send to socket 10 raising, the broadcast loop propagates the exception to the
caller and socket 20 — registered, healthy, and later in the list — never
receives the message; failures are not swallowed per-connection. -/
theorem c8_counterexample_failure_aborts_broadcast :
    (ConnectionManager.broadcast (fun c => c == 10) [(1, [10, 20])] 1).1 = some 10 ∧
    20 ∉ (ConnectionManager.broadcast (fun c => c == 10) [(1, [10, 20])] 1).2 := by
  decide

/-- C8 (amended): `broadcast` sends sequentially in registration order with no
per-connection error handling: it completes without error iff no registered
connection's send fails, and exactly the connections *before* the first
failing one receive the message (the first failure aborts the loop and
propagates to the caller). -/
theorem c8_amended_broadcast_stops_at_first_failure
    (sendFails : Nat → Bool) (r : Registry) (jobId : Nat) :
    ((ConnectionManager.broadcast sendFails r jobId).1 = none ↔
      ∀ c ∈ regGet r jobId, sendFails c = false) ∧
    (ConnectionManager.broadcast sendFails r jobId).2 =
      (regGet r jobId).takeWhile (fun c => !sendFails c) :=
  sendAll_spec sendFails (regGet r jobId)

/-- C1: the websocket endpoint `job_ws` registers every connection in the
registry *before* any authorization check and never removes it on the
policy-violation close, so even a connection that is closed with code 1008
(no session user, missing job, or `can_view_job` false) remains registered:
the first conjunct shows the socket is in the job's connection list after
*every* admission outcome, the second evaluates the endpoint for a
session-less connection attempt, which ends closed yet registered. -/
theorem c1_rejected_ws_remains_registered :
    (∀ (r : Registry) (jobId ws : Nat) (sessionUserId : Option Nat)
       (findUser : Nat → Option User) (findJob : Nat → Option JobState),
       ws ∈ regGet (job_ws r jobId ws sessionUserId findUser findJob).registry jobId) ∧
    job_ws [] 7 42 none (fun _ => none) (fun _ => none) =
      { registry := [(7, [42])], closedPolicy := true } := by
  constructor
  · intro r jobId ws sid fu fj
    have hreg : (job_ws r jobId ws sid fu fj).registry =
        ConnectionManager.connect r jobId ws := by
      unfold job_ws
      cases sid with
      | none => rfl
      | some uid =>
        by_cases h0 : uid = 0
        · simp [h0]
        · simp only [h0, if_false]
          cases hu : fu uid <;> cases hj : fj jobId <;> simp [hu, hj]
          split <;> rfl
    rw [hreg, ConnectionManager.connect, regGet_regSet_self]
    simp
  · decide

/-- C7: `assign_translator` raises `ValueError` ("InvalidAssignment") exactly
when a translator is supplied whose role is not `translator`, and in that case
the raise precedes every mutation, so the job row (translator id, status, due
date, notes) and its request row are returned untouched. -/
theorem c7_assign_non_translator_rejected :
    ∀ (s : JobState) (translator : Option User) (due : Option Nat) (notes : Option String),
      ((assign_translator s translator due notes).1 ≠ none ↔
        ∃ t, translator = some t ∧ t.role ≠ ROLE_TRANSLATOR) ∧
      ∀ t, translator = some t → t.role ≠ ROLE_TRANSLATOR →
        assign_translator s translator due notes =
          (some "Selected user is not a translator", s) := by
  intro s translator due notes
  cases translator with
  | none => simp [assign_translator]
  | some t =>
    by_cases h : t.role = ROLE_TRANSLATOR
    · simp [assign_translator, h]
    · simp [assign_translator, h]

/-- C5: after every `create_or_update_quote` call (both the update-in-place
and the fresh-quote branch) the returned quote satisfies
`total = round2(word_count * unit_price)`, and its unit price is the supplied
override when given, else the rate for the language pair, else the fixed
fallback 0.10. -/
theorem c5_quote_total_equation :
    ∀ (db : Db) (request : TranslationRequest) (word_count : Nat)
      (unit_price : Option ℚ) (currency : String) (newQuoteId : Nat),
      ((create_or_update_quote db request word_count unit_price currency newQuoteId).2.total =
        round2
          (((create_or_update_quote db request word_count unit_price currency newQuoteId).2.word_count : ℚ) *
            (create_or_update_quote db request word_count unit_price currency newQuoteId).2.unit_price)) ∧
      (create_or_update_quote db request word_count unit_price currency newQuoteId).2.unit_price =
        resolved_unit_price db request unit_price := by
  intro db request wc up currency nid
  unfold create_or_update_quote
  cases h : db.quotes.find? (fun q => q.request_id == request.id) <;> simp [h]





/-- C2 (counterexample): the synchronous message-API predicate
(`require_job_participant`) admits any caller whose id equals the request's
client id *regardless of role*, while `can_view_job` requires the role to
match; on a translator-role user with the client's id they disagree, so the
two predicates are not equal as functions of (user, job). -/
theorem c2_counterexample_predicates_differ :
    require_job_participant c2user c2state = true ∧
    can_view_job c2user c2state = false := by decide

/-- C2 (amended): on every referentially well-formed pair — the user's id is a
real (positive) row id, a user carrying the request's client id has role
`client`, and a user carrying the job's translator id has role `translator` —
the synchronous message-API admission decision equals `can_view_job`. -/
theorem c2_amended_sync_auth_equals_can_view (user : User) (s : JobState)
    (hid : user.id ≠ 0)
    (hclient : user.id = s.request.client_id → user.role = ROLE_CLIENT)
    (htr : s.job.translator_id = some user.id → user.role = ROLE_TRANSLATOR) :
    require_job_participant user s = can_view_job user s := by
  unfold require_job_participant can_view_job
  unfold ROLE_CLIENT ROLE_MANAGER ROLE_TRANSLATOR ROLE_ADMIN at *
  cases htid : s.job.translator_id with
  | none =>
    simp only [htid] at htr ⊢
    by_cases hm : user.role = "manager" <;>
      by_cases ha : user.role = "admin" <;>
        by_cases hc : user.id = s.request.client_id <;>
          simp_all
    intro _ he
    exact hc he.symm
  | some t =>
    simp only [htid] at htr ⊢
    by_cases hm : user.role = "manager" <;>
      by_cases ha : user.role = "admin" <;>
        by_cases hc : user.id = s.request.client_id <;>
          by_cases htu : t = user.id <;>
            by_cases ht0 : t = 0 <;>
              simp_all
    · intro _ he
      exact hc he.symm
    · rw [@decide_eq_false (user.id = t) _ fun h => htu h.symm,
          @decide_eq_false (s.request.client_id = user.id) _ fun h => hc h.symm]
      simp

theorem find?_request_id_map_set_status (l : List Job) (jid : Nat) (st : String)
    (rid : Nat) :
    (l.map (fun x => if x.id == jid then { x with status := st } else x)).find?
        (fun x => x.request_id == rid) =
      (l.find? (fun x => x.request_id == rid)).map
        (fun x => if x.id == jid then { x with status := st } else x) := by
  have hfun : ((fun x : Job => x.request_id == rid) ∘
      (fun x => if x.id == jid then { x with status := st } else x)) =
      fun x : Job => x.request_id == rid := by
    funext x
    by_cases hx : x.id == jid <;> simp [Function.comp, hx]
  rw [List.find?_map, hfun]





/-- C3 (counterexample): approving the quote again while the job has advanced
to `Assigned` does NOT return the existing job unchanged — the route's
unconditional `job.status = "New"` resets the job's status from `Assigned`
back to `New`. -/
theorem c3_counterexample_reapproval_resets_status :
    c3db.jobs.map Job.status = ["Assigned"] ∧
    (approve_quote c3db c3client 3 8).map (fun d => d.jobs.map Job.status) =
      some ["New"] := by decide

/-- C3 (amended): when a job already exists for the request,
`ensure_job_for_request` alone is idempotent (returns the database and the
existing job unchanged), and a repeated approval creates no second job and
leaves the job's identity, translator, due date and notes (and the requests
and invoices tables) unchanged — but it resets the existing job's status to
`"New"`. -/
theorem c3_amended_reapproval_one_job_status_reset (db : Db) (user : User)
    (quoteId newJobId : Nat) (quote : Quote) (req : TranslationRequest) (j : Job)
    (hq : db.quotes.find? (fun q => q.id == quoteId) = some quote)
    (hr : db.requests.find? (fun r => r.id == quote.request_id) = some req)
    (hc : req.client_id = user.id)
    (hj : db.jobs.find? (fun x => x.request_id == req.id) = some j) :
    ensure_job_for_request db req newJobId = (db, j) ∧
    ∃ db2, approve_quote db user quoteId newJobId = some db2 ∧
      db2.jobs.length = db.jobs.length ∧
      db2.jobs.find? (fun x => x.request_id == req.id) =
        some { j with status := "New" } ∧
      db2.requests = db.requests ∧ db2.invoices = db.invoices := by
  have hens : ensure_job_for_request db req newJobId = (db, j) := by
    unfold ensure_job_for_request
    rw [hj]
  refine ⟨hens, ?_⟩
  have hens1 : ensure_job_for_request (mark_quote_status db quoteId "Approved")
      req newJobId = (mark_quote_status db quoteId "Approved", j) := by
    unfold ensure_job_for_request mark_quote_status
    dsimp only
    rw [hj]
  unfold approve_quote
  simp only [hq, hr, hc, beq_self_eq_true, if_true, hens1]
  refine ⟨_, rfl, ?_, ?_, rfl, rfl⟩
  · simp [mark_quote_status]
  · have hjobs : (mark_quote_status db quoteId "Approved").jobs = db.jobs := rfl
    rw [hjobs, find?_request_id_map_set_status, hj]
    simp



/-- C6 (counterexample): `send_quote` sets the request's status to `"Quoted"`
without touching its existing job, so an operation of the system breaks the
`Request.status == Job.status` lockstep on a state where it held. -/
theorem c6_counterexample_send_quote_breaks_lockstep :
    dbMirrors c6db = true ∧ (send_quote c6db 3).map dbMirrors = some false := by
  decide

/-- C6 (amended): the job-service operations keep the lockstep —
`assign_translator` preserves `request.status = job.status`,
`update_job_status` (re-)establishes it unconditionally, and
`ensure_job_for_request` preserves the database-wide mirror invariant — but
the route-level `send_quote` (and a repeated `approve_quote`) can break it. -/
theorem c6_amended_job_service_preserves_lockstep :
    (∀ (s : JobState) (translator : Option User) (due : Option Nat)
       (notes : Option String),
       s.request.status = s.job.status →
       (assign_translator s translator due notes).2.request.status =
         (assign_translator s translator due notes).2.job.status) ∧
    (∀ (s : JobState) (status : String) (now : Nat),
       (update_job_status s status now).request.status =
         (update_job_status s status now).job.status) ∧
    (∀ (db : Db) (request : TranslationRequest) (newJobId : Nat),
       dbMirrors db = true →
       dbMirrors (ensure_job_for_request db request newJobId).1 = true) := by
  refine ⟨?_, ?_, ?_⟩
  · intro s translator due notes hmir
    unfold assign_translator
    by_cases herr : translator.any (fun t => t.role != ROLE_TRANSLATOR) <;>
      simp only [herr, if_true, if_false, Bool.false_eq_true]
    · exact hmir
    · split_ifs <;> simp_all
  · intro s status now
    rfl
  · intro db request newJobId hmir
    unfold ensure_job_for_request
    cases hfind : db.jobs.find? (fun j => j.request_id == request.id) with
    | some j => exact hmir
    | none =>
      unfold dbMirrors at hmir ⊢
      rw [List.all_eq_true] at hmir ⊢
      intro r' hr'
      dsimp only at hr' ⊢
      rw [List.mem_map] at hr'
      obtain ⟨r, hrmem, rfl⟩ := hr'
      by_cases hrid : r.id = request.id
      · have hb : (r.id == request.id) = true := by simp [hrid]
        simp only [request_job, hb, if_true, List.find?_append]
        rw [hrid, hfind]
        simp
      · have hb : (r.id == request.id) = false := by simp [hrid]
        simp only [request_job, hb, Bool.false_eq_true, if_false, List.find?_append]
        cases hf : db.jobs.find? (fun j => j.request_id == r.id) with
        | some jj =>
          simp only [hf, Option.or_some]
          have := hmir r hrmem
          simpa [request_job, hf] using this
        | none =>
          simp only [hf, Option.none_or, List.find?_singleton]
          have hne : ¬ (request.id = r.id) := fun h => hrid h.symm
          simp [hne]



/-- C9 (counterexample): job 1 of `c9db` already has an invoice, yet invoking
`generate_invoice` again does not report the informational no-op — the status
check runs first, so the call fails with the "Job not ready for invoicing"
error (HTTP 400). -/
theorem c9_counterexample_invoiced_job_errors :
    (c9db.invoices.find? (fun i => i.job_id == 1)).isSome = true ∧
    generate_invoice c9db 1 99 0 = (.notReady, c9db) := by decide

/-- C9 (amended): re-invoicing a job that already has an invoice never creates
a second invoice and leaves the state unchanged; it reports the informational
no-op when the job's status is Delivered or Accepted, but fails with the
not-ready *error* when the invoiced job's status is outside that set (as
happens after "return to translator").  In particular at most one invoice ever
exists per job. -/
theorem c9_amended_reinvoice_creates_nothing (db : Db)
    (jobId newInvoiceId now : Nat) (job : Job) (inv : Invoice)
    (hjob : db.jobs.find? (fun j => j.id == jobId) = some job)
    (hinv : db.invoices.find? (fun i => i.job_id == job.id) = some inv) :
    (generate_invoice db jobId newInvoiceId now).2 = db ∧
    ((job.status = "Delivered" ∨ job.status = "Accepted") →
      (generate_invoice db jobId newInvoiceId now).1 = .alreadyInvoiced) ∧
    (¬(job.status = "Delivered" ∨ job.status = "Accepted") →
      (generate_invoice db jobId newInvoiceId now).1 = .notReady) := by
  unfold generate_invoice
  by_cases hst : job.status = "Delivered" ∨ job.status = "Accepted" <;>
    simp [hjob, hinv, hst]

/-- C10: `generate_invoice` fails with the not-ready error and leaves the
database unchanged whenever the job is missing or its status is neither
`Delivered` nor `Accepted`; and whenever it reports a created invoice, the
job exists with status `Delivered` or `Accepted` and exactly one invoice row
was appended. -/
theorem c10_invoice_only_for_delivered_or_accepted :
    ∀ (db : Db) (jobId newInvoiceId now : Nat),
      ((∀ job, db.jobs.find? (fun j => j.id == jobId) = some job →
          ¬(job.status = "Delivered" ∨ job.status = "Accepted")) →
        generate_invoice db jobId newInvoiceId now = (.notReady, db)) ∧
      (∀ invId, (generate_invoice db jobId newInvoiceId now).1 = .created invId →
        ∃ job, db.jobs.find? (fun j => j.id == jobId) = some job ∧
          (job.status = "Delivered" ∨ job.status = "Accepted") ∧
          (generate_invoice db jobId newInvoiceId now).2.invoices.length =
            db.invoices.length + 1) := by
  intro db jobId newInvoiceId now
  unfold generate_invoice
  cases hjob : db.jobs.find? (fun j => j.id == jobId) with
  | none => simp
  | some job =>
    by_cases hst : job.status = "Delivered" ∨ job.status = "Accepted"
    · refine ⟨fun h => absurd hst (h job rfl), ?_⟩
      intro invId hcreated
      refine ⟨job, rfl, hst, ?_⟩
      simp only [hst, if_true] at hcreated ⊢
      cases hinv : db.invoices.find? (fun i => i.job_id == job.id) with
      | some i => simp [hinv] at hcreated
      | none =>
        simp only [hinv] at hcreated ⊢
        cases hreq : db.requests.find? (fun r => r.id == job.request_id) with
        | none => simp [hreq] at hcreated
        | some req => simp [hreq]
    · simp [hst]

/-- C2 (witness): the amended equivalence applied to a well-formed concrete
pair — the request's own client posting to their job. -/
theorem c2_witness_client_on_own_job :
    require_job_participant c2wuser c2wstate = can_view_job c2wuser c2wstate :=
  c2_amended_sync_auth_equals_can_view c2wuser c2wstate (by decide) (by decide)
    (by decide)

/-- C3 (witness): the amended statement applied to the concrete state `c3db`:
the second approval keeps exactly one job, preserves its translator, due date
and notes, and resets its status to `"New"`. -/
theorem c3_witness_second_approval_on_c3db :
    ensure_job_for_request c3db c3req 8 = (c3db, c3job) ∧
    ∃ db2, approve_quote c3db c3client 3 8 = some db2 ∧
      db2.jobs.length = c3db.jobs.length ∧
      db2.jobs.find? (fun x => x.request_id == c3req.id) =
        some { c3job with status := "New" } ∧
      db2.requests = c3db.requests ∧ db2.invoices = c3db.invoices :=
  c3_amended_reapproval_one_job_status_reset c3db c3client 3 8 c3quote c3req c3job
    (by decide) (by decide) (by decide) (by decide)

/-- C9 (witness): the amended statement applied to the concrete state `c9wdb`:
re-invoicing the delivered, already invoiced job changes nothing and reports
the informational no-op. -/
theorem c9_witness_delivered_reinvoice_noop :
    (generate_invoice c9wdb 1 50 0).2 = c9wdb ∧
    ((c9wjob.status = "Delivered" ∨ c9wjob.status = "Accepted") →
      (generate_invoice c9wdb 1 50 0).1 = .alreadyInvoiced) ∧
    (¬(c9wjob.status = "Delivered" ∨ c9wjob.status = "Accepted") →
      (generate_invoice c9wdb 1 50 0).1 = .notReady) :=
  c9_amended_reinvoice_creates_nothing c9wdb 1 50 0 c9wjob c9winv (by decide)
    (by decide)
